import Mathlib

/-!
Shallow embedding of the conversational agent in `src/agent.py` (together
with its entry point `src/main.py`).  The program is a LangGraph workflow
with three nodes (`user_input`, `model_response`, `tool_use`), a conditional
router (`check_tool_use`), a message state merged by LangGraph's
`add_messages` reducer, and an `Agent` class with `__init__` / `initialize` /
`run` methods.

Modelling conventions:
* LangChain messages (`SystemMessage`, `HumanMessage`, `AIMessage`,
  `ToolMessage`) become one `Message` structure with a `role` tag.  In
  Python only `AIMessage` objects carry the `tool_calls` attribute; reading
  `msg.tool_calls` on any other message raises `AttributeError`.  That
  attribute read is embedded as `getAttrToolCalls : Message → Option _`
  with `none` standing for the raised `AttributeError`.
* A raised, uncaught Python exception is `Except.error` with a text that
  describes the exception; pure successful results are `Except.ok`.
* Message `content` is embedded as the plain text of the message.  (The
  source wraps the system preamble in a single text block carrying an
  ephemeral cache-control marker; the block structure carries no further
  information, so the embedding keeps the text.)
* `add_messages` (the LangGraph reducer on `AgentState.messages`) appends
  messages whose `id` is fresh or absent and replaces, in place, an
  existing message with the same `id`.  Deletions via `RemoveMessage` are
  not used anywhere in the program and are not modelled.
-/

inductive Role
  | system
  | user
  | assistant
  | tool
deriving DecidableEq

/-- One tool-invocation request emitted by the model: tool name, argument
mapping, and the call identifier (`tc["name"]`, `tc["args"]`, `tc["id"]`
in `src/agent.py`). -/
structure ToolCall where
  name : String
  args : List (String × String)
  id : String
deriving DecidableEq

/-- A conversation message.  `tool_calls` is meaningful only for
assistant messages (see `getAttrToolCalls`); `tool_call_id` only for
tool messages; `name` is the tool name ToolNode stamps on tool messages;
`id` is the LangChain message id used by the `add_messages` reducer
(`none` embeds Python `id=None`, which always results in an append). -/
structure Message where
  role : Role
  content : String
  tool_calls : List ToolCall := []
  tool_call_id : Option String := none
  name : Option String := none
  id : Option Nat := none
deriving DecidableEq

def mkHumanMessage (text : String) : Message :=
  { role := Role.user, content := text }

def mkSystemMessage (text : String) : Message :=
  { role := Role.system, content := text }

def mkAIMessage (text : String) (tcs : List ToolCall) : Message :=
  { role := Role.assistant, content := text, tool_calls := tcs }

/-- Reading the `tool_calls` attribute of a message object.  Only
`AIMessage` has this attribute in LangChain; on every other message class
the read raises `AttributeError`, embedded as `none`. -/
def getAttrToolCalls (m : Message) : Option (List ToolCall) :=
  match m.role with
  | Role.assistant => some m.tool_calls
  | _ => none

/-- An executable capability registered under a tool name.  `invoke`
returns the textual tool output or raises (`Except.error` carries the
exception description). -/
structure Tool where
  name : String
  invoke : List (String × String) → Except String String

/-- LangGraph's `add_messages` reducer, which merges a node's returned
message list into the state: a message whose `id` matches an existing
message replaces it in place, every other message (including all messages
with `id=None`) is appended in order. -/
def add_messages : List Message → List Message → List Message
  | old, [] => old
  | old, m :: rest =>
    match m.id with
    | none => add_messages (old ++ [m]) rest
    | some i =>
      if old.any (fun o => o.id == some i) then
        add_messages (old.map (fun o => if o.id == some i then m else o)) rest
      else
        add_messages (old ++ [m]) rest

/-- The fixed system preamble of `model_response` in `src/agent.py`,
verbatim (the Python triple-quoted string keeps the 12-space indentation
of its continuation lines). -/
def system_text : String :=
  "You are a specialised agent for maintaining and developing codebases.\n            ## Development Guidelines:\n\n            1. **Test Failures:**\n            - When tests fail, fix the implementation first, not the tests.\n            - Tests represent expected behavior; implementation should conform to tests\n            - Only modify tests if they clearly don't match specifications\n\n            2. **Code Changes:**\n            - Make the smallest possible changes to fix issues\n            - Focus on fixing the specific problem rather than rewriting large portions\n            - Add unit tests for all new functionality before implementing it\n\n            3. **Best Practices:**\n            - Keep functions small with a single responsibility\n            - Implement proper error handling with appropriate exceptions\n            - Be mindful of configuration dependencies in tests\n\n            Ask for clarification when needed. Remember to examine test failure messages carefully to understand the root cause before making any changes."

/-- Node `user_input`: reads one line from the console and returns the
delta `{\x7bmessages: [HumanMessage(content=user_input)]\x7d}` to be merged by
`add_messages`.  The console read is the function's input here. -/
def user_input (inputText : String) : List Message :=
  [mkHumanMessage inputText]

/-- The prompt context assembled by `model_response`: the fixed system
preamble, then the working-directory context message, then the entire
current conversation, in that order.  `cwd` is `os.getcwd()`. -/
def assemblePrompt (cwd : String) (conv : List Message) : List Message :=
  mkSystemMessage system_text :: mkHumanMessage ("Working directory: " ++ cwd) :: conv

/-- Node `model_response`: invokes the bound model on the assembled prompt
and returns the delta `{\x7bmessages: [response]\x7d}`.  The model provider is a
parameter `model`. -/
def model_response (model : List Message → Message) (cwd : String)
    (conv : List Message) : List Message :=
  [model (assemblePrompt cwd conv)]

/-- Conditional router `check_tool_use`: reads
`state.messages[-1].tool_calls` and returns the node name `tool_use` when
that list is truthy (non-empty), `user_input` otherwise.  `none` embeds a
raised exception: `IndexError` on an empty history, `AttributeError` when
the last message is not an assistant message (only `AIMessage` has the
`tool_calls` attribute). -/
def check_tool_use (conv : List Message) : Option String :=
  match conv.getLast? with
  | none => none
  | some m =>
    match getAttrToolCalls m with
    | none => none
    | some tcs => if tcs.isEmpty then some "user_input" else some "tool_use"

def availableNames (tools : List Tool) : String :=
  String.intercalate ", " (tools.map (fun t => t.name))

/-- ToolMessage produced by langgraph's ToolNode for a call whose name is
not among the node's tools (ToolNode validates each call and answers an
unknown name with this error message instead of invoking anything). -/
def invalidToolMessage (tools : List Tool) (tc : ToolCall) : Message :=
  { role := Role.tool,
    content := "Error: " ++ tc.name ++ " is not a valid tool, try one of ["
      ++ availableNames tools ++ "].",
    tool_call_id := some tc.id,
    name := some tc.name }

/-- ToolNode's handling of one tool call: look the name up among the
node's tools; unknown names yield the invalid-tool error message; a
capability that raises is caught by ToolNode (its default
`handle_tool_errors=True`) and converted into an error ToolMessage whose
content is the error template around the exception description; a
successful invocation yields a ToolMessage with the tool output.  Every
produced ToolMessage carries the call's id. -/
def runOneToolCall (tools : List Tool) (tc : ToolCall) : Message :=
  match tools.find? (fun t => t.name == tc.name) with
  | none => invalidToolMessage tools tc
  | some t =>
    match t.invoke tc.args with
    | Except.ok out =>
        { role := Role.tool, content := out,
          tool_call_id := some tc.id, name := some tc.name }
    | Except.error e =>
        { role := Role.tool,
          content := "Error: " ++ e ++ "\n Please fix your mistakes.",
          tool_call_id := some tc.id, name := some tc.name }

/-- The `for tc in state.messages[-1].tool_calls` loop body of node
`tool_use` in `src/agent.py`.  `allCalls` is the full tool-call list of
the last message (the loop iterates over it and ToolNode re-reads it on
every invocation); `pending` is the remainder of the iteration.

Per iteration the source does:
* `tool = tools_by_name.get(tc["name"])` — `None` when unregistered;
* `tool_node = ToolNode([tool])` — this line sits OUTSIDE the
  `try` block; with `tool = None` the ToolNode constructor raises while
  converting `None` into a tool, an uncaught exception that aborts the
  whole node (embedded as `Except.error`);
* inside `try`: `tool_result = await tool_node.ainvoke(state)` — ToolNode
  executes EVERY call of `state.messages[-1]` against its single tool
  (`allCalls.map (runOneToolCall [tl])`), answering the calls whose name
  is not that tool with the invalid-tool error message — and then
  `response.append(tool_result["messages"][0])` keeps only element 0 of
  that result list, the answer to the FIRST call of the batch. -/
def toolUseLoop (registry : List Tool) (allCalls : List ToolCall) :
    List ToolCall → Except String (List Message)
  | [] => Except.ok []
  | tc :: rest =>
    match registry.find? (fun t => t.name == tc.name) with
    | none =>
        Except.error ("ValueError: ToolNode([None]) for call " ++ tc.name
          ++ " raised while converting None into a tool")
    | some tl =>
      match (allCalls.map (runOneToolCall [tl])).head? with
      | none => Except.error "IndexError: list index out of range"
      | some m =>
        match toolUseLoop registry allCalls rest with
        | Except.ok ms => Except.ok (m :: ms)
        | Except.error e => Except.error e

/-- Node `tool_use`: iterates over the tool calls of the last message and
returns the delta of collected ToolMessages, or raises (`Except.error`),
in which case nothing at all is merged into the state. -/
def tool_use (registry : List Tool) (conv : List Message) :
    Except String (List Message) :=
  match conv.getLast? with
  | none => Except.error "IndexError: list index out of range"
  | some lastMsg =>
    match getAttrToolCalls lastMsg with
    | none => Except.error "AttributeError: tool_calls"
    | some tcs => toolUseLoop registry tcs tcs

/-- One engine step at node `user_input`: the returned delta merged into
the running conversation by `add_messages`. -/
def stepUserInput (conv : List Message) (inputText : String) : List Message :=
  add_messages conv (user_input inputText)

/-- One engine step at node `model_response`: the returned delta merged
into the running conversation by `add_messages`. -/
def stepModelResponse (model : List Message → Message) (cwd : String)
    (conv : List Message) : List Message :=
  add_messages conv (model_response model cwd conv)

/-- One engine step at node `tool_use`: on success the delta is merged by
`add_messages`; a raised exception aborts the step with nothing merged. -/
def stepToolUse (registry : List Tool) (conv : List Message) :
    Except String (List Message) :=
  match tool_use registry conv with
  | Except.ok ms => Except.ok (add_messages conv ms)
  | Except.error e => Except.error e

/-- The three workflow nodes registered on the StateGraph. -/
inductive Node
  | user_input
  | model_response
  | tool_use
deriving DecidableEq

/-- The static shape of the compiled workflow graph: entry point, fixed
edges, and the node whose outgoing edge is conditional. -/
structure Workflow where
  entryPoint : Node
  staticEdges : List (Node × Node)
  conditionalSource : Node
deriving DecidableEq

/-- The graph built in `Agent.__init__`: entry point `user_input`, fixed
edges `user_input → model_response` and `tool_use → model_response`, and
a conditional edge out of `model_response` driven by `check_tool_use`. -/
def agentWorkflow : Workflow :=
  { entryPoint := Node.user_input,
    staticEdges := [(Node.user_input, Node.model_response),
                    (Node.tool_use, Node.model_response)],
    conditionalSource := Node.model_response }

/-- The conditional-edge mapping `{\x7b"tool_use": "tool_use",
"user_input": "user_input"\x7d}` applied to the router's answer; `none`
again embeds a raised exception inside the router. -/
def routeFromModelResponse (conv : List Message) : Option Node :=
  match check_tool_use conv with
  | none => none
  | some s => some (if s == "tool_use" then Node.tool_use else Node.user_input)

/-- The error raised by `Agent.__init__` when the provider credential is
missing. -/
def missingKeyError : String :=
  "Missing ANTHROPIC_API_KEY in environment. Set it in .env or your shell."

/-- The fields `Agent.__init__` establishes when construction succeeds.
No tools are loaded and no message exists at construction time (tools and
the compiled graph only appear later in `initialize`); the empty lists
record that. -/
structure AgentCtor where
  apiKey : String
  modelName : String
  maxTokens : Nat
  initialized : Bool
  workflow : Workflow
  tools : List Tool
  messages : List Message

/-- `Agent.__init__`: reads `ANTHROPIC_API_KEY` from the environment and
raises `RuntimeError` when it is absent (or empty — Python truthiness of
`not api_key`) before constructing the model, the console, or the
workflow graph.  `env` is the process environment after `load_dotenv`. -/
def Agent.init (env : String → Option String) : Except String AgentCtor :=
  match env "ANTHROPIC_API_KEY" with
  | none => Except.error missingKeyError
  | some k =>
    if k = "" then Except.error missingKeyError
    else Except.ok
      { apiKey := k,
        modelName := "claude-3-7-sonnet-latest",
        maxTokens := 4096,
        initialized := false,
        workflow := agentWorkflow,
        tools := [],
        messages := [] }

/-- The side effects `Agent.initialize` performs on its first run, in
source order. -/
inductive SetupEffect
  | loadTools
  | bindTools
  | openCheckpointer
  | compileWorkflow
  | printReadyBanner
deriving DecidableEq

/-- The mutable agent fields touched by `Agent.initialize`. -/
structure AgentR where
  initialized : Bool
  tools : List Tool
  modelBound : Bool
  checkpointerOpen : Bool
  compiled : Bool

/-- Embeds `Agent.initialize` from `src/agent.py` (that method name is a
reserved word here, hence `setup`).  Guarded by `self._initialized`: a
second call returns `self` at once with no effects; the first call loads
local plus MCP tools, sets the flag, binds the tools to the model, opens
the checkpointer, compiles the workflow and prints the ready banner.
`localTools` and `mcpTools` stand for `[run_unit_tests]` and the result
of `await self.get_mcp_tools()`. -/
def Agent.setup (localTools mcpTools : List Tool) (a : AgentR) :
    AgentR × List SetupEffect :=
  if a.initialized then (a, [])
  else
    ({ initialized := true,
       tools := localTools ++ mcpTools,
       modelBound := true,
       checkpointerOpen := true,
       compiled := true },
     [SetupEffect.loadTools, SetupEffect.bindTools, SetupEffect.openCheckpointer,
      SetupEffect.compileWorkflow, SetupEffect.printReadyBanner])

/-- The fixed greeting `Agent.run` seeds the workflow with:
`AIMessage(content="What can I do for you?")` — an assistant message with
the default empty `tool_calls`. -/
def initialGreeting : Message :=
  { role := Role.assistant, content := "What can I do for you?" }

/-- The state the workflow invocation starts from: the seeded greeting
merged into the empty checkpoint by `add_messages`. -/
def runSeed : List Message :=
  add_messages [] [initialGreeting]

/-- Freshness of a message id relative to a conversation: the id is
absent (Python `None`) or matches no existing message.  Under
`add_messages` exactly these messages are appended rather than replacing
an existing message. -/
def freshId (conv : List Message) (m : Message) : Prop :=
  m.id = none ∨ ∀ o ∈ conv, o.id ≠ m.id

/-- Naive substring test (Python's `in` on strings), used to state
properties about error text. -/
def strContains (hay needle : String) : Bool :=
  (List.range (hay.data.length + 1)).any
    (fun i => needle.data.isPrefixOf (hay.data.drop i))

/-! Concrete inputs used by counterexamples and witnesses. -/

/-- An assistant message carrying one tool call. -/
def c1AssistantMsg : Message :=
  mkAIMessage "Running the tests." [⟨"run_unit_tests", [], "call_1"⟩]

/-- A registry holding only the local `run_unit_tests` tool. -/
def c2Registry : List Tool :=
  [{ name := "run_unit_tests", invoke := fun _ => Except.ok "All tests passed" }]

/-- A conversation whose last assistant message requests a tool that is
not registered. -/
def c2Conv : List Message :=
  [mkHumanMessage "search the web",
   mkAIMessage "I will search." [⟨"web_search", [], "call_1"⟩]]

/-- A working registered tool. -/
def c3Tool : Tool :=
  { name := "run_unit_tests", invoke := fun _ => Except.ok "2 passed" }

/-- An assistant message carrying two tool calls with distinct call ids. -/
def c3Assistant : Message :=
  mkAIMessage "Running the tests twice."
    [⟨"run_unit_tests", [], "call_a"⟩, ⟨"run_unit_tests", [], "call_b"⟩]

def c3Conv : List Message :=
  [mkHumanMessage "run the tests twice", c3Assistant]

/-- The ToolMessage the code produces for the first call of `c3Assistant`. -/
def c3ResultMsg : Message :=
  { role := Role.tool, content := "2 passed",
    tool_call_id := some "call_a", name := some "run_unit_tests" }

/-- A registered tool that always raises on invocation. -/
def brokenTool : Tool :=
  { name := "broken_tool", invoke := fun _ => Except.error "division by zero" }

/-- A conversation whose last assistant message calls `broken_tool`. -/
def c4Conv : List Message :=
  [mkHumanMessage "break something",
   mkAIMessage "Calling the broken tool." [⟨"broken_tool", [], "call_9"⟩]]

/-- The error ToolMessage the code produces for the `broken_tool` call. -/
def c4ErrMsg : Message :=
  { role := Role.tool,
    content := "Error: division by zero\n Please fix your mistakes.",
    tool_call_id := some "call_9", name := some "broken_tool" }

/-- A model stub answering with plain text and no tool calls. -/
def c5DemoModel : List Message → Message :=
  fun _ => mkAIMessage "Hi there!" []

/-- A model stub answering with plain text and no tool calls. -/
def c6DemoModel : List Message → Message :=
  fun _ => mkAIMessage "Done." []

/-- A short conversation ending in an assistant message without tool
calls. -/
def c6DemoConv : List Message :=
  [mkHumanMessage "hello", mkAIMessage "Hi there!" []]

/-- An agent on which `initialize` has already run. -/
def c9DemoAgent : AgentR :=
  { initialized := true, tools := [], modelBound := true,
    checkpointerOpen := true, compiled := true }

/-! Support lemmas shared by the claim theorems. -/

theorem add_messages_of_ids_none (new : List Message) :
    ∀ old : List Message, (∀ m ∈ new, m.id = none) →
    add_messages old new = old ++ new := by
  induction new with
  | nil => intro old _; simp [add_messages]
  | cons m rest ih =>
    intro old h
    have hm : m.id = none := h m (by simp)
    rw [add_messages, hm]
    rw [ih (old ++ [m]) (fun x hx => h x (by simp [hx]))]
    simp

theorem add_messages_singleton_fresh (old : List Message) (m : Message)
    (h : freshId old m) : add_messages old [m] = old ++ [m] := by
  rcases h with h | h
  · exact add_messages_of_ids_none [m] old (by simpa using h)
  · cases hm : m.id with
    | none => exact add_messages_of_ids_none [m] old (by simpa using hm)
    | some i =>
      have hany : old.any (fun o => o.id == some i) = false := by
        rw [List.any_eq_false]
        intro o ho
        have := h o ho
        rw [hm] at this
        simpa using this
      simp [add_messages, hm, hany]

theorem runOneToolCall_id_none (tools : List Tool) (tc : ToolCall) :
    (runOneToolCall tools tc).id = none := by
  unfold runOneToolCall
  split
  · simp [invalidToolMessage]
  · split <;> simp

theorem toolUseLoop_ids_none (registry : List Tool) (allCalls : List ToolCall) :
    ∀ pending ms, toolUseLoop registry allCalls pending = Except.ok ms →
    ∀ m ∈ ms, m.id = none := by
  intro pending
  induction pending with
  | nil =>
    intro ms h m hm
    rw [toolUseLoop] at h
    cases h
    simp at hm
  | cons tc rest ih =>
    intro ms h m hm
    rw [toolUseLoop] at h
    split at h
    next => cases h
    next tl hf =>
      split at h
      next => cases h
      next m0 hh =>
        split at h
        next ms0 hr =>
          cases h
          rcases List.mem_cons.mp hm with hm0 | hms
          · subst hm0
            have hmem : m ∈ allCalls.map (runOneToolCall [tl]) :=
              List.mem_of_mem_head? hh
            rcases List.mem_map.mp hmem with ⟨tc0, _, rfl⟩
            exact runOneToolCall_id_none [tl] tc0
          · exact ih ms0 hr m hms
        next e he => cases h

theorem tool_use_ids_none (registry : List Tool) (conv : List Message)
    (ms : List Message) (h : tool_use registry conv = Except.ok ms) :
    ∀ m ∈ ms, m.id = none := by
  unfold tool_use at h
  split at h
  next => cases h
  next lastMsg hl =>
    split at h
    next => cases h
    next tcs ha => exact toolUseLoop_ids_none registry tcs tcs ms h

theorem toolUseLoop_ok_of_registered (registry : List Tool) (a : ToolCall)
    (as : List ToolCall) :
    ∀ pending, (∀ tc ∈ pending,
      (registry.find? (fun t => t.name == tc.name)).isSome) →
    ∃ ms, toolUseLoop registry (a :: as) pending = Except.ok ms ∧
      ms.length = pending.length := by
  intro pending
  induction pending with
  | nil => intro _; exact ⟨[], rfl, rfl⟩
  | cons tc rest ih =>
    intro h
    obtain ⟨tl, htl⟩ := Option.isSome_iff_exists.mp (h tc (by simp))
    obtain ⟨ms, hms, hlen⟩ := ih (fun x hx => h x (by simp [hx]))
    refine ⟨runOneToolCall [tl] a :: ms, ?_, by simp [hlen]⟩
    rw [toolUseLoop, htl]
    simp only [List.map_cons, List.head?_cons]
    rw [hms]

/-! Claim theorems. -/

/-- C1, counterexample.  The claim states the router returns `ToUser`
(`"user_input"`) for every message that is not an assistant message.  On a
user message the code instead raises `AttributeError` while reading
`state.messages[-1].tool_calls` (only `AIMessage` has that attribute),
embedded as `none`. -/
theorem c1_router_counterexample :
    check_tool_use [mkHumanMessage "hi"] = none ∧
    check_tool_use [mkHumanMessage "hi"] ≠ some "user_input" :=
  ⟨rfl, by decide⟩

/-- C1, amended.  The router returns `"tool_use"` iff the last message is
an assistant message with a non-empty `tool_calls`, and `"user_input"` iff
it is an assistant message with empty `tool_calls`; on a non-assistant
last message it raises `AttributeError` instead of returning
`"user_input"` (in the compiled workflow the router only ever runs right
after `model_response`, whose appended response is an assistant
message). -/
theorem c1_router_amended (conv : List Message) (m : Message) :
    (check_tool_use (conv ++ [m]) = some "tool_use" ↔
      m.role = Role.assistant ∧ m.tool_calls ≠ []) ∧
    (check_tool_use (conv ++ [m]) = some "user_input" ↔
      m.role = Role.assistant ∧ m.tool_calls = []) ∧
    (m.role ≠ Role.assistant → check_tool_use (conv ++ [m]) = none) := by
  have hl : (conv ++ [m]).getLast? = some m := by
    simp [List.getLast?_concat]
  cases hr : m.role <;> cases htc : m.tool_calls <;>
    simp [check_tool_use, hl, getAttrToolCalls, hr, htc]

/-- C1, witness for the amended theorem at concrete messages. -/
theorem c1_router_witness :
    check_tool_use [c1AssistantMsg] = some "tool_use" ∧
    check_tool_use [mkAIMessage "Hi there!" []] = some "user_input" ∧
    check_tool_use [mkHumanMessage "hi"] = none :=
  ⟨(c1_router_amended [] c1AssistantMsg).1.mpr ⟨rfl, by decide⟩,
   (c1_router_amended [] (mkAIMessage "Hi there!" [])).2.1.mpr ⟨rfl, rfl⟩,
   (c1_router_amended [] (mkHumanMessage "hi")).2.2 (by decide)⟩

/-- C2, code evaluated at the failing input.  For a tool call whose name
has no registered capability, `tools_by_name.get` yields `None` and the
line `tool_node = ToolNode([tool])` — which sits outside the `try` block —
raises while converting `None` into a tool.  The exception is uncaught:
the node aborts (`Except.error`) and no failure ToolResult carrying the
original `call_id` is ever produced, contradicting the claim that this
execution never raises and never aborts the loop. -/
theorem c2_unregistered_tool_crashes :
    (∃ e, tool_use c2Registry c2Conv = Except.error e) ∧
    ∀ ms, tool_use c2Registry c2Conv ≠ Except.ok ms :=
  ⟨⟨_, rfl⟩, fun _ h => by cases h⟩

/-- C3, code evaluated at the failing input.  The loop body keeps only
element `[0]` of each ToolNode result, and ToolNode answers every call of
the last assistant message, so with two tool calls (ids `call_a`,
`call_b`) both appended tool messages answer `call_a`: the batch has the
right length but its call-id set is `{call_a}`, not `{call_a, call_b}`,
contradicting the claimed invariant. -/
theorem c3_duplicate_call_ids :
    tool_use [c3Tool] c3Conv = Except.ok [c3ResultMsg, c3ResultMsg] ∧
    c3Assistant.tool_calls.map ToolCall.id = ["call_a", "call_b"] ∧
    c3ResultMsg.tool_call_id = some "call_a" ∧
    c3ResultMsg.tool_call_id ≠ some "call_b" :=
  ⟨rfl, rfl, rfl, by decide⟩

/-- C4, counterexample.  A registered capability that raises during
invocation is caught — but by ToolNode itself (its default
`handle_tool_errors=True`), which formats the error template around the
exception description only.  The resulting failure ToolMessage carries
the original `call_id`, yet its error description does not contain the
tool's name, contradicting that part of the claim (the agent's own
`except` handler, which would name the tool, is unreachable for
exceptions raised inside the capability). -/
theorem c4_invocation_error_counterexample :
    tool_use [brokenTool] c4Conv = Except.ok [c4ErrMsg] ∧
    c4ErrMsg.tool_call_id = some "call_9" ∧
    strContains c4ErrMsg.content "broken_tool" = false :=
  ⟨rfl, rfl, by decide⟩

/-- C4, amended.  For a tool call whose registered capability raises, the
exception is caught and converted into a failure ToolMessage that carries
the original `call_id` and the exception's description (but not
necessarily the tool's name); the failure never propagates out of the
tool-execution step, and the loop still processes the remaining calls of
the batch (producing one message per call) provided their names are
registered. -/
theorem c4_invocation_error_amended (registry : List Tool)
    (conv : List Message) (lastMsg : Message) (tc : ToolCall)
    (rest : List ToolCall) (tl : Tool) (e : String)
    (hlast : conv.getLast? = some lastMsg)
    (hrole : lastMsg.role = Role.assistant)
    (hcalls : lastMsg.tool_calls = tc :: rest)
    (hfind : registry.find? (fun t => t.name == tc.name) = some tl)
    (hinv : tl.invoke tc.args = Except.error e)
    (hrest : ∀ tc' ∈ rest,
      (registry.find? (fun t => t.name == tc'.name)).isSome) :
    ∃ ms, tool_use registry conv =
      Except.ok ({ role := Role.tool,
                   content := "Error: " ++ e ++ "\n Please fix your mistakes.",
                   tool_call_id := some tc.id, name := some tc.name } :: ms) ∧
      ms.length = rest.length := by
  have hpred : (tl.name == tc.name) = true := by
    have h0 := List.find?_some hfind
    simpa using h0
  have hfind1 : [tl].find? (fun t => t.name == tc.name) = some tl :=
    List.find?_cons_of_pos _ hpred
  have hrun : runOneToolCall [tl] tc =
      { role := Role.tool,
        content := "Error: " ++ e ++ "\n Please fix your mistakes.",
        tool_call_id := some tc.id, name := some tc.name } := by
    unfold runOneToolCall
    simp only [hfind1, hinv]
  have hattr : getAttrToolCalls lastMsg = some (tc :: rest) := by
    simp [getAttrToolCalls, hrole, hcalls]
  obtain ⟨ms, hms, hlen⟩ :=
    toolUseLoop_ok_of_registered registry tc rest rest hrest
  refine ⟨ms, ?_, hlen⟩
  simp only [tool_use, hlast, hattr]
  rw [toolUseLoop]
  simp only [hfind, List.map_cons, List.head?_cons, hrun, hms]

/-- C4, witness for the amended theorem at the concrete broken tool. -/
theorem c4_invocation_error_witness :
    ∃ ms, tool_use [brokenTool] c4Conv =
      Except.ok ({ role := Role.tool,
                   content := "Error: division by zero\n Please fix your mistakes.",
                   tool_call_id := some "call_9", name := some "broken_tool" } :: ms) ∧
      ms.length = 0 := by
  have h := c4_invocation_error_amended [brokenTool] c4Conv
    (mkAIMessage "Calling the broken tool." [⟨"broken_tool", [], "call_9"⟩])
    ⟨"broken_tool", [], "call_9"⟩ [] brokenTool "division by zero"
    rfl rfl rfl rfl rfl (by simp)
  simpa using h

/-- C5, confirmed.  On every model invocation the prompt context is
exactly the fixed system preamble, then one working-directory context
message, then the entire current conversation, in that order; and the
model-response step appends only the model's response message to the
conversation — the two injected messages are never persisted into it. -/
theorem c5_prompt_assembly (model : List Message → Message) (cwd : String)
    (conv : List Message) :
    assemblePrompt cwd conv =
      mkSystemMessage system_text ::
        mkHumanMessage ("Working directory: " ++ cwd) :: conv ∧
    (freshId conv (model (assemblePrompt cwd conv)) →
      stepModelResponse model cwd conv =
        conv ++ [model (assemblePrompt cwd conv)]) := by
  refine ⟨rfl, fun hf => ?_⟩
  unfold stepModelResponse model_response
  exact add_messages_singleton_fresh conv _ hf

/-- C5, witness at a concrete model and conversation. -/
theorem c5_prompt_assembly_witness :
    stepModelResponse c5DemoModel "/repo" [mkHumanMessage "hello"] =
      [mkHumanMessage "hello", mkAIMessage "Hi there!" []] := by
  have h := (c5_prompt_assembly c5DemoModel "/repo" [mkHumanMessage "hello"]).2
    (Or.inl rfl)
  simpa using h

/-- C6, confirmed.  Every engine step only appends: the user-input step
appends exactly the one new user message, the model-response step appends
exactly the response (whenever the provider-issued message id is fresh,
which the `add_messages` reducer requires for an append rather than an
in-place replacement), and a successful tool-use step appends exactly its
batch of tool messages — in each case the prior conversation is an
unchanged prefix of the result. -/
theorem c6_append_only (conv : List Message) (s : String)
    (model : List Message → Message) (cwd : String) (registry : List Tool)
    (ms : List Message) :
    stepUserInput conv s = conv ++ [mkHumanMessage s] ∧
    (freshId conv (model (assemblePrompt cwd conv)) →
      stepModelResponse model cwd conv =
        conv ++ [model (assemblePrompt cwd conv)]) ∧
    (tool_use registry conv = Except.ok ms →
      stepToolUse registry conv = Except.ok (conv ++ ms)) := by
  refine ⟨?_, fun hf => ?_, fun ht => ?_⟩
  · unfold stepUserInput user_input
    exact add_messages_singleton_fresh conv (mkHumanMessage s) (Or.inl rfl)
  · unfold stepModelResponse model_response
    exact add_messages_singleton_fresh conv _ hf
  · have hids := tool_use_ids_none registry conv ms ht
    simp only [stepToolUse, ht]
    rw [add_messages_of_ids_none ms conv hids]

/-- C6, witness at a concrete conversation, model and registry. -/
theorem c6_append_only_witness :
    stepUserInput c6DemoConv "next question" =
      c6DemoConv ++ [mkHumanMessage "next question"] ∧
    stepModelResponse c6DemoModel "/repo" c6DemoConv =
      c6DemoConv ++ [c6DemoModel (assemblePrompt "/repo" c6DemoConv)] ∧
    stepToolUse [] c6DemoConv = Except.ok (c6DemoConv ++ []) := by
  have h := c6_append_only c6DemoConv "next question" c6DemoModel "/repo" [] []
  exact ⟨h.1, h.2.1 (Or.inl rfl), h.2.2 rfl⟩

/-- C7, confirmed.  When `ANTHROPIC_API_KEY` is absent from the
environment, `Agent.__init__` raises `RuntimeError` at startup: no agent
object is constructed, so no session begins, no tool is loaded and no
message is appended. -/
theorem c7_missing_api_key (env : String → Option String)
    (h : env "ANTHROPIC_API_KEY" = none) :
    Agent.init env = Except.error missingKeyError ∧
    ∀ a, Agent.init env ≠ Except.ok a := by
  constructor
  · simp [Agent.init, h]
  · intro a ha
    rw [Agent.init, h] at ha
    cases ha

/-- C7, witness at a concrete empty environment. -/
theorem c7_missing_api_key_witness :
    Agent.init (fun _ => none) = Except.error missingKeyError :=
  (c7_missing_api_key (fun _ => none) rfl).1

/-- C8, confirmed.  `Agent.run` seeds the workflow with the fixed
assistant greeting, which carries no tool calls; the compiled graph's
entry point is the `user_input` node, so from the seeded state the engine
blocks on user input (and even the router, applied to the seeded state,
would choose `user_input`, not `tool_use`). -/
theorem c8_seed_greeting :
    agentWorkflow.entryPoint = Node.user_input ∧
    runSeed = [initialGreeting] ∧
    initialGreeting.role = Role.assistant ∧
    initialGreeting.content = "What can I do for you?" ∧
    initialGreeting.tool_calls = [] ∧
    routeFromModelResponse runSeed = some Node.user_input :=
  ⟨rfl, rfl, rfl, rfl, rfl, rfl⟩

/-- C9, confirmed.  `initialize` is guarded by `self._initialized`: on an
already-initialized agent it returns the agent unchanged with no effects
(no tool loading, model binding, checkpointer creation or workflow
compilation), and after any first call every later call does the same. -/
theorem c9_setup_idempotent (localTools mcpTools : List Tool) (a b : AgentR)
    (h : a.initialized = true) :
    Agent.setup localTools mcpTools a = (a, []) ∧
    Agent.setup localTools mcpTools (Agent.setup localTools mcpTools b).1 =
      ((Agent.setup localTools mcpTools b).1, []) := by
  constructor
  · simp [Agent.setup, h]
  · cases hb : b.initialized <;> simp [Agent.setup, hb]

/-- C9, witness at a concrete initialized agent. -/
theorem c9_setup_idempotent_witness :
    Agent.setup [] [] c9DemoAgent = (c9DemoAgent, []) :=
  (c9_setup_idempotent [] [] c9DemoAgent c9DemoAgent rfl).1

/-- C10, confirmed.  For every input string obtained from the user — the
empty string included — the user-input step appends exactly one user-role
message whose content is the input text verbatim, with no trimming,
filtering or rejection. -/
theorem c10_user_input_verbatim (conv : List Message) (s : String) :
    stepUserInput conv s = conv ++ [mkHumanMessage s] ∧
    user_input s = [mkHumanMessage s] ∧
    (mkHumanMessage s).role = Role.user ∧
    (mkHumanMessage s).content = s := by
  refine ⟨?_, rfl, rfl, rfl⟩
  unfold stepUserInput user_input
  exact add_messages_singleton_fresh conv (mkHumanMessage s) (Or.inl rfl)
